import Mathlib

/-!
Verification of the conversation-orchestration core of the arbot-puppet
repository: Message/Session schema, the APIClient retry wrapper, the two
ConversationEngine variants and their animation-hint derivation.

The JavaScript source is shallowly embedded as pure Lean functions:
  * `crypto.randomUUID()` and `Date.now()` are modelled by fixed constants;
    the only properties the code ever inspects about them are that the id is
    a non-empty string and the timestamp a number, which the constants have.
  * `fetch` plus JSON extraction is abstracted as an oracle function giving,
    for each attempt number, either an HTTP error status or the raw reply
    text the code would read out of the response body.
  * `await new Promise(setTimeout(delay))` waits are recorded in a list of
    delays (in milliseconds) instead of being performed.
  * JavaScript truthiness tests on strings (`if (!msg.text)`, `if (response)`,
    `aiResponse.text || fallback`) are modelled as emptiness tests, which is
    exactly what they are for strings.
-/

/-- Metadata attached to a `Message` (src/schema/message.js).  The open
key-value map is modelled by the single key the engine ever writes and the
animation collaborator ever reads: `animationHint`. -/
structure Metadata where
  animationHint : Option String := none
deriving DecidableEq, Repr

/-- One conversational turn (src/schema/message.js, class `Message`). -/
structure Message where
  id : String
  sender : String
  text : String
  timestamp : Int
  type : String
  metadata : Metadata := {}
deriving DecidableEq, Repr

/-- `Message.validate` from src/schema/message.js.  The `typeof` string and
number checks hold by typing; the remaining JavaScript checks are: `msg.id`
truthy, `sender` in {user, puppet}, `msg.text` truthy, `type` in
{text, voice}. -/
def Message.validate (msg : Message) : Bool :=
  msg.id != "" &&
  (msg.sender == "user" || msg.sender == "puppet") &&
  msg.text != "" &&
  (msg.type == "text" || msg.type == "voice")

/-- One continuous conversation (src/schema/session.js, class `Session`). -/
structure Session where
  sessionId : String
  userId : String
  startTime : Int
  active : Bool
  conversationHistory : List Message
deriving DecidableEq, Repr

/-- `Session.addMessage` from src/schema/session.js: appends iff the message
validates and returns the success flag.  The updated session is returned
explicitly because the embedding is pure.  Note that the method does not
inspect `active`. -/
def Session.addMessage (s : Session) (message : Message) : Session × Bool :=
  if Message.validate message then
    ({ s with conversationHistory := s.conversationHistory ++ [message] }, true)
  else
    (s, false)

/-- `Session.getConversationContext(limit)` from src/schema/session.js:
`this.conversationHistory.slice(-limit)`.  JavaScript `slice(-limit)` takes
the last `limit` elements when `limit ≥ 1`, but for `limit = 0` the start
index `-0` equals `0`, so the whole array is returned. -/
def Session.getConversationContext (s : Session) (limit : Nat) : List Message :=
  if limit = 0 then s.conversationHistory
  else s.conversationHistory.drop (s.conversationHistory.length - limit)

/-- `Session.endSession` from src/schema/session.js: sets `active = false`
and nothing else. -/
def Session.endSession (s : Session) : Session :=
  { s with active := false }

/-- JavaScript `text.includes(c)` for a one-character needle `c`: membership
of the character in the string, computed over the string's character list. -/
def jsIncludesChar (text : String) (c : Char) : Bool :=
  text.data.contains c

/-- JavaScript `String.prototype.trim`: strip leading and trailing
whitespace, modelled over the character list with `Char.isWhitespace`. -/
def jsTrim (s : String) : String :=
  String.mk
    (((s.data.dropWhile Char.isWhitespace).reverse.dropWhile
        Char.isWhitespace).reverse)

/-- `selectAnimationHint(text)` from the schema-based ConversationEngine:
question mark (full-width or ASCII) wins, then exclamation mark, else
`talking`. -/
def selectAnimationHint (text : String) : String :=
  if jsIncludesChar text '？' || jsIncludesChar text '?' then "confused"
  else if jsIncludesChar text '！' || jsIncludesChar text '!' then "happy"
  else "talking"

/-- Configuration record of `APIClient` (src/services/apiClient.js
constructor): provider name, optional API key, per-attempt timeout and the
retry budget. -/
structure APIClientConfig where
  provider : String
  apiKey : Option String
  timeout : Nat
  retries : Nat
deriving DecidableEq, Repr

/-- The `APIClient` class (src/services/apiClient.js); its only state is the
configuration object. -/
structure APIClient where
  config : APIClientConfig
deriving DecidableEq, Repr

/-- `APIClient.setProvider` from src/services/apiClient.js: accepts exactly
the members of `['openai', 'claude']`, updating the provider and returning
`true`; any other string leaves the client untouched and returns `false`. -/
def APIClient.setProvider (c : APIClient) (provider : String) : APIClient × Bool :=
  if provider == "openai" || provider == "claude" then
    ({ c with config := { c.config with provider := provider } }, true)
  else
    (c, false)

/-- `APIClient.withRetry` from src/services/apiClient.js, the recursive
retry-with-exponential-backoff wrapper.  The operation `fn` is indexed by
the attempt number (what `fn()` would produce on that call); `remaining`
counts the retries still allowed, i.e. `retries - attempt`, so the source's
guard `attempt < this.config.retries` is exactly `remaining > 0`.  The
result pairs the final outcome with the list of backoff delays performed,
in order: after failed attempt `attempt` the code waits
`Math.pow(2, attempt - 1) * 1000` milliseconds. -/
def withRetryAux {E A : Type} (fn : Nat → Except E A) :
    Nat → Nat → Except E A × List Nat
  | attempt, remaining =>
    match fn attempt with
    | Except.ok v => (Except.ok v, [])
    | Except.error e =>
      match remaining with
      | 0 => (Except.error e, [])
      | r + 1 =>
        let rest := withRetryAux fn (attempt + 1) r
        (rest.1, 2 ^ (attempt - 1) * 1000 :: rest.2)

/-- `withRetry(fn)` called with its default `attempt = 1`, given the
configured retry budget `retries` (default 3). -/
def withRetry {E A : Type} (retries : Nat) (fn : Nat → Except E A) :
    Except E A × List Nat :=
  withRetryAux fn 1 (retries - 1)

/-- A role/content pair as sent to a provider API. -/
structure RoleMsg where
  role : String
  content : String
deriving DecidableEq, Repr

/-- The message formatting step of `generateAIResponse` (schema-based
ConversationEngine): `user` stays `user`, everything else becomes
`assistant`. -/
def formatMessages (ctx : List Message) : List RoleMsg :=
  ctx.map fun msg =>
    ⟨if msg.sender == "user" then "user" else "assistant", msg.text⟩

/-- The distinct failures thrown inside `callLLMAPI` (schema-based
ConversationEngine): missing API key, unknown provider, and a non-ok HTTP
response carrying the provider name and status. -/
inductive LLMError where
  | noApiKey : LLMError
  | unknownProvider (provider : String) : LLMError
  | apiError (provider : String) (status : Nat) : LLMError
deriving DecidableEq, Repr

/-- What `callOpenAI`/`callClaude` return on success: the trimmed reply text
and the animation hint selected from the untrimmed text. -/
structure LLMResult where
  text : String
  animationHint : String
deriving DecidableEq, Repr

/-- The body of one iteration of the `callLLMAPI` retry loop (schema-based
ConversationEngine, the try-block of `for attempt...`): check the API key,
then dispatch on the provider name, then perform the network call.  `net1`
gives the outcome of the network round-trip for each attempt number (error
status of a non-ok response, or the raw text read from the response body);
the returned flag records whether a network call was made on this attempt.
`callOpenAI` and `callClaude` differ only in wire format, which the oracle
absorbs; both trim the reply and derive the hint from the untrimmed text. -/
def llmAttempt (provider : String) (apiKey : Option String)
    (net1 : Nat → Except Nat String) (attempt : Nat) :
    Except LLMError LLMResult × Bool :=
  match apiKey with
  | none => (Except.error LLMError.noApiKey, false)
  | some _ =>
    if provider == "openai" || provider == "claude" then
      match net1 attempt with
      | Except.error status =>
        (Except.error (LLMError.apiError provider status), true)
      | Except.ok raw =>
        (Except.ok ⟨jsTrim raw, selectAnimationHint raw⟩, true)
    else
      (Except.error (LLMError.unknownProvider provider), false)

/-- The `callLLMAPI` retry loop (schema-based ConversationEngine):
`maxRetries = 3` attempts; after a failed attempt with attempts remaining it
waits `2^(attempt-1) * 1000`; after the last failure it rethrows
`lastError`.  `remaining` is `maxRetries - attempt`.  The result carries the
delays waited and the number of network calls actually made. -/
def callLLMAPIAux (provider : String) (apiKey : Option String)
    (net1 : Nat → Except Nat String) :
    Nat → Nat → Except LLMError LLMResult × List Nat × Nat
  | attempt, remaining =>
    match llmAttempt provider apiKey net1 attempt with
    | (Except.ok v, called) => (Except.ok v, [], cond called 1 0)
    | (Except.error e, called) =>
      match remaining with
      | 0 => (Except.error e, [], cond called 1 0)
      | r + 1 =>
        let rest := callLLMAPIAux provider apiKey net1 (attempt + 1) r
        (rest.1, 2 ^ (attempt - 1) * 1000 :: rest.2.1,
          cond called 1 0 + rest.2.2)

/-- `callLLMAPI` entry point: attempts start at 1 with `maxRetries = 3`,
hence 2 retries remaining. -/
def callLLMAPI (provider : String) (apiKey : Option String)
    (net1 : Nat → Except Nat String) :
    Except LLMError LLMResult × List Nat × Nat :=
  callLLMAPIAux provider apiKey net1 1 2

/-- What `generateAIResponse` returns to `processUserMessage`: reply text
and animation hint. -/
structure AIResp where
  text : String
  animationHint : String
deriving DecidableEq, Repr

/-- `generateAIResponse` (schema-based ConversationEngine): builds the
bounded context window, formats it, calls `callLLMAPI`, and on any failure
catches the error and returns the fixed fallback reply with the `confused`
hint. -/
def generateAIResponse (s : Session) (maxHistoryLength : Nat)
    (provider : String) (apiKey : Option String)
    (net : List RoleMsg → Nat → Except Nat String) : AIResp :=
  match (callLLMAPI provider apiKey
      (net (formatMessages (s.getConversationContext maxHistoryLength)))).1 with
  | Except.ok response =>
    ⟨response.text,
      if response.animationHint == "" then "talking"
      else response.animationHint⟩
  | Except.error _ =>
    ⟨"抱歉，我现在有点困惑。请再说一遍？", "confused"⟩

/-- The schema-based `ConversationEngine` (the Session/Message variant):
configuration plus the owned session and the processing flag. -/
structure ConversationEngine where
  apiProvider : String
  maxHistoryLength : Nat
  systemPrompt : String
  session : Option Session
  isProcessing : Bool
deriving DecidableEq, Repr

/-- The user `Message` constructed by `processUserMessage`
(`new Message({ sender: 'user', text, type: 'text' })`). -/
def mkUserMessage (text : String) : Message :=
  { id := "uuid-user", sender := "user", text := text, timestamp := 0,
    type := "text" }

/-- The puppet `Message` constructed by `processUserMessage`: text falls back
to `'我想不出好的回答...'` when the AI text is empty, and the metadata
carries `aiResponse.animationHint || 'talking'`. -/
def mkPuppetMessage (aiResponse : AIResp) : Message :=
  { id := "uuid-puppet", sender := "puppet",
    text := if aiResponse.text == "" then "我想不出好的回答..."
      else aiResponse.text,
    timestamp := 0, type := "text",
    metadata :=
      ⟨some (if aiResponse.animationHint == "" then "talking"
        else aiResponse.animationHint)⟩ }

/-- `processUserMessage(text)` (schema-based ConversationEngine): the guard
`if (!this.session || this.isProcessing) return null` — note it checks
neither `session.active` nor the text content — then: append the user
message, generate the AI response, append the puppet message, return the
puppet message.  `isProcessing` is set in the try block and reset in
`finally`, so across the whole (synchronously modelled) turn it ends where
it started: false. -/
def ConversationEngine.processUserMessage (e : ConversationEngine)
    (text : String) (apiKey : Option String)
    (net : List RoleMsg → Nat → Except Nat String) :
    ConversationEngine × Option Message :=
  match e.session with
  | none => (e, none)
  | some s =>
    if e.isProcessing then (e, none)
    else
      let s1 := (s.addMessage (mkUserMessage text)).1
      let aiResponse :=
        generateAIResponse s1 e.maxHistoryLength e.apiProvider apiKey net
      let puppetMessage := mkPuppetMessage aiResponse
      let s2 := (s1.addMessage puppetMessage).1
      ({ e with session := some s2, isProcessing := false },
        some puppetMessage)

/-- `endSession` (schema-based ConversationEngine): if a session exists,
mark it inactive.  There is no operation anywhere that sets `active` back to
true. -/
def ConversationEngine.endSession (e : ConversationEngine) :
    ConversationEngine :=
  match e.session with
  | none => e
  | some s => { e with session := some s.endSession }

/-- The simpler history-array `ConversationEngine` variant (the first engine
class in the source): a plain role/content history, a cap, and the
processing flag. -/
structure SimpleConversationEngine where
  maxHistory : Nat
  conversationHistory : List RoleMsg
  isProcessing : Bool
deriving DecidableEq, Repr

/-- `sendMessage(userMessage)` of the simpler ConversationEngine variant:
rejects (null) while processing or when the text trims to empty; pushes the
user message; truncates with `slice(-maxHistory)` only when the history then
exceeds the cap (the assistant push below is not followed by a trim); on a
truthy API reply pushes the assistant message and returns it, otherwise
returns null.  `apiResult` abstracts `await this.callOpenAIAPI()` (an error
is caught and turned into a null return).  The trim block
`if (length > maxHistory) history = history.slice(-maxHistory)` is the
named function `trimHistory`; as with `getConversationContext`, JavaScript
`slice(-0)` is `slice(0)`, the whole array. -/
def trimHistory (l : List RoleMsg) (max : Nat) : List RoleMsg :=
  if l.length > max then
    if max = 0 then l else l.drop (l.length - max)
  else l

def SimpleConversationEngine.sendMessage (e : SimpleConversationEngine)
    (userMessage : String) (apiResult : Except String String) :
    SimpleConversationEngine × Option String :=
  if e.isProcessing then (e, none)
  else if jsTrim userMessage == "" then (e, none)
  else
    let h1 := e.conversationHistory ++ [⟨"user", userMessage⟩]
    let h2 := trimHistory h1 e.maxHistory
    match apiResult with
    | Except.ok response =>
      if response == "" then
        ({ e with conversationHistory := h2, isProcessing := false }, none)
      else
        let am : RoleMsg := ⟨"assistant", response⟩
        ({ e with conversationHistory := h2 ++ [am], isProcessing := false },
          some response)
    | Except.error _ =>
      ({ e with conversationHistory := h2, isProcessing := false }, none)

/-- `APIClient.sendMessage` (src/services/apiClient.js): dispatch on the
configured provider — `openai` and `claude` each wrap their network request
in `withRetry`; any other provider name throws `Unknown API provider`
before any network call or retry.  The constructor only warns about a
missing API key; `sendMessage` performs no key check.  `net` abstracts the
per-attempt network round-trip; on success the reply text is trimmed. -/
def APIClient.sendMessage (c : APIClient) (net : Nat → Except Nat String) :
    Except LLMError String × List Nat :=
  if c.config.provider == "openai" || c.config.provider == "claude" then
    withRetry c.config.retries fun i =>
      match net i with
      | Except.ok raw => Except.ok (jsTrim raw)
      | Except.error status =>
        Except.error (LLMError.apiError c.config.provider status)
  else
    (Except.error (LLMError.unknownProvider c.config.provider), [])

/-- A fresh active session, as `initialize` would create it (before the
greeting), used as a concrete test fixture. -/
def sampleSession : Session :=
  { sessionId := "session-1", userId := "anonymous", startTime := 0,
    active := true, conversationHistory := [] }

/-- A ready schema-based engine owning `sampleSession`. -/
def sampleEngine : ConversationEngine :=
  { apiProvider := "openai", maxHistoryLength := 10, systemPrompt := "p",
    session := some sampleSession, isProcessing := false }

/-- The same engine caught mid-turn (`isProcessing = true`). -/
def busyEngine : ConversationEngine :=
  { apiProvider := "openai", maxHistoryLength := 10, systemPrompt := "p",
    session := some sampleSession, isProcessing := true }

/-- A network oracle whose every attempt succeeds with the reply
`"Hi there"`. -/
def okNet : List RoleMsg → Nat → Except Nat String :=
  fun _ _ => Except.ok "Hi there"

/-- A network oracle whose every attempt fails with HTTP status 500. -/
def failNet : List RoleMsg → Nat → Except Nat String :=
  fun _ _ => Except.error 500

/-- A concrete valid message fixture. -/
def sampleMessage : Message :=
  { id := "m1", sender := "user", text := "hi", timestamp := 0,
    type := "text" }

/-- A session already holding one message, for the context-window claims. -/
def oneMessageSession : Session :=
  { sessionId := "s9", userId := "u", startTime := 0, active := true,
    conversationHistory := [sampleMessage] }

/-- One successful turn of the simpler engine variant: send `u`, receive
`r`. -/
def seTurn (se : SimpleConversationEngine) (u r : String) :
    SimpleConversationEngine :=
  (se.sendMessage u (Except.ok r)).1

/-- C7: animation-hint derivation is a deterministic pure function of the
reply text with first-match-wins order: any text containing an ASCII or
full-width question mark maps to `confused`; otherwise any text containing
an ASCII or full-width exclamation mark maps to `happy`; otherwise the hint
is `talking`. -/
theorem claim_C7_animation_hint (text : String) :
    ((jsIncludesChar text '？' || jsIncludesChar text '?') = true →
      selectAnimationHint text = "confused") ∧
    ((jsIncludesChar text '？' || jsIncludesChar text '?') = false →
      (jsIncludesChar text '！' || jsIncludesChar text '!') = true →
      selectAnimationHint text = "happy") ∧
    ((jsIncludesChar text '？' || jsIncludesChar text '?') = false →
      (jsIncludesChar text '！' || jsIncludesChar text '!') = false →
      selectAnimationHint text = "talking") := by
  refine ⟨fun h => ?_, fun h1 h2 => ?_, fun h1 h2 => ?_⟩ <;>
    simp [selectAnimationHint, *]

/-- Witness for C7 at the spec's three concrete examples: "What?" yields
`confused`, "Hi!" yields `happy`, "Hello" yields `talking`. -/
theorem claim_C7_witness :
    selectAnimationHint "What?" = "confused" ∧
    selectAnimationHint "Hi!" = "happy" ∧
    selectAnimationHint "Hello" = "talking" :=
  ⟨(claim_C7_animation_hint "What?").1 (by decide),
   (claim_C7_animation_hint "Hi!").2.1 (by decide) (by decide),
   (claim_C7_animation_hint "Hello").2.2 (by decide) (by decide)⟩

/-- C10: `setProvider p` succeeds exactly when `p` is `openai` or `claude`,
in which case only the provider field changes; for every other value it
returns `false` and the whole client (provider, key, timeout, retries) is
unchanged. -/
theorem claim_C10_setProvider (c : APIClient) (p : String) :
    ((c.setProvider p).2 = true ↔ (p = "openai" ∨ p = "claude")) ∧
    ((p = "openai" ∨ p = "claude") →
      (c.setProvider p).1.config.provider = p ∧
      (c.setProvider p).1.config.apiKey = c.config.apiKey ∧
      (c.setProvider p).1.config.timeout = c.config.timeout ∧
      (c.setProvider p).1.config.retries = c.config.retries) ∧
    (¬(p = "openai" ∨ p = "claude") → c.setProvider p = (c, false)) := by
  refine ⟨?_, fun h => ?_, fun h => ?_⟩
  · constructor
    · intro h
      by_contra hc
      push_neg at hc
      simp [APIClient.setProvider, hc.1, hc.2] at h
    · intro h
      rcases h with h | h <;> simp [APIClient.setProvider, h]
  · rcases h with h | h <;> simp [APIClient.setProvider, h]
  · push_neg at h
    simp [APIClient.setProvider, h.1, h.2]

/-- Witness for C10: a concrete client accepts `claude` (provider updated,
rest unchanged) and rejects `gemini` unchanged. -/
theorem claim_C10_witness :
    ((APIClient.mk ⟨"openai", some "k", 30000, 3⟩).setProvider "claude").1.config.provider
      = "claude" ∧
    (APIClient.mk ⟨"openai", some "k", 30000, 3⟩).setProvider "gemini"
      = (APIClient.mk ⟨"openai", some "k", 30000, 3⟩, false) :=
  ⟨((claim_C10_setProvider (APIClient.mk ⟨"openai", some "k", 30000, 3⟩) "claude").2.1
      (Or.inr rfl)).1,
   (claim_C10_setProvider (APIClient.mk ⟨"openai", some "k", 30000, 3⟩) "gemini").2.2
      (by decide)⟩

/-- One-step unfolding of `withRetryAux` when the current attempt succeeds:
the wrapper returns at once with no further delays. -/
theorem withRetryAux_ok {E A : Type} (fn : Nat → Except E A) (a rem : Nat)
    (v : A) (h : fn a = Except.ok v) :
    withRetryAux fn a rem = (Except.ok v, []) := by
  unfold withRetryAux
  rw [h]

/-- One-step unfolding of `withRetryAux` when the current attempt fails with
no retries remaining: the error is rethrown. -/
theorem withRetryAux_err_zero {E A : Type} (fn : Nat → Except E A) (a : Nat)
    (e : E) (h : fn a = Except.error e) :
    withRetryAux fn a 0 = (Except.error e, []) := by
  unfold withRetryAux
  rw [h]

/-- One-step unfolding of `withRetryAux` when the current attempt fails with
retries remaining: wait `2^(a-1) * 1000` and recurse on the next attempt. -/
theorem withRetryAux_err_succ {E A : Type} (fn : Nat → Except E A) (a r : Nat)
    (e : E) (h : fn a = Except.error e) :
    withRetryAux fn a (r + 1) =
      ((withRetryAux fn (a + 1) r).1,
        2 ^ (a - 1) * 1000 :: (withRetryAux fn (a + 1) r).2) := by
  conv_lhs => unfold withRetryAux
  rw [h]

/-- If attempts `a, a+1, ..., a+j-1` fail and attempt `a+j` succeeds within
the remaining budget, `withRetryAux` returns the success and performs one
backoff delay of `2^(i-1) * 1000` for each failed attempt `i`. -/
theorem withRetryAux_fail_then_succeed {E A : Type} (fn : Nat → Except E A)
    (errs : Nat → E) (v : A) :
    ∀ (j a rem : Nat), j ≤ rem →
    (∀ i, a ≤ i → i < a + j → fn i = Except.error (errs i)) →
    fn (a + j) = Except.ok v →
    withRetryAux fn a rem =
      (Except.ok v, (List.range' a j).map fun i => 2 ^ (i - 1) * 1000) := by
  intro j
  induction j with
  | zero =>
    intro a rem _ _ hsucc
    simp only [Nat.add_zero] at hsucc
    rw [withRetryAux_ok fn a rem v hsucc]
    simp
  | succ n ih =>
    intro a rem hle hfail hsucc
    obtain ⟨r, rfl⟩ : ∃ r, rem = r + 1 := ⟨rem - 1, by omega⟩
    have hfa : fn a = Except.error (errs a) := hfail a (Nat.le_refl a) (by omega)
    have hrec := ih (a + 1) r (by omega)
      (fun i h1 h2 => hfail i (by omega) (by omega))
      (by rw [show a + 1 + n = a + (n + 1) by omega]; exact hsucc)
    rw [withRetryAux_err_succ fn a r (errs a) hfa, hrec, List.range'_succ]
    simp

/-- Sum of the modelled backoff delays for failed attempts `1, ..., k`,
expressed as the spec's sum over `i` in `[1, k]` of `2^(i-1) * base`. -/
theorem range'_delay_sum (k : Nat) :
    ((List.range' 1 k).map fun i => 2 ^ (i - 1) * 1000).sum =
      Finset.sum (Finset.Icc 1 k) fun i => 2 ^ (i - 1) * 1000 := by
  induction k with
  | zero => simp
  | succ n ih =>
    rw [List.range'_concat, Finset.sum_Icc_succ_top (by omega)]
    simp only [List.map_append, List.sum_append, List.map_cons, List.map_nil,
      List.sum_cons, List.sum_nil, ih]
    simp [Nat.add_comm 1 n]

/-- C3: for a wrapped operation failing on attempts `1..k` and succeeding on
attempt `k+1`, with `k + 1 ≤ retries`, `withRetry` returns the success
value; attempt 1 is preceded by no wait, and the wait before attempt `i+1`
is exactly `2^(i-1) * 1000`, so the waits are `[2^0*1000, ..., 2^(k-1)*1000]`
and their total is the sum over `i ∈ [1,k]` of `2^(i-1) * 1000`. -/
theorem claim_C3_retry_backoff {E A : Type} (fn : Nat → Except E A)
    (errs : Nat → E) (retries k : Nat) (v : A)
    (hfail : ∀ i, 1 ≤ i → i ≤ k → fn i = Except.error (errs i))
    (hsucc : fn (k + 1) = Except.ok v)
    (hk : k + 1 ≤ retries) :
    withRetry retries fn =
      (Except.ok v, (List.range' 1 k).map fun i => 2 ^ (i - 1) * 1000) ∧
    (withRetry retries fn).2.sum =
      Finset.sum (Finset.Icc 1 k) fun i => 2 ^ (i - 1) * 1000 := by
  have h := withRetryAux_fail_then_succeed fn errs v k 1 (retries - 1)
    (by omega)
    (fun i h1 h2 => hfail i h1 (by omega))
    (by rw [Nat.add_comm 1 k]; exact hsucc)
  refine ⟨h, ?_⟩
  rw [withRetry, h]
  exact range'_delay_sum k

/-- Witness for C3: an operation failing on attempts 1 and 2 and succeeding
on attempt 3, under the default budget of 3, yields the success value 42
after waits of exactly 1000 then 2000 milliseconds. -/
theorem claim_C3_witness :
    withRetry 3 (fun i => if i = 3 then Except.ok 42 else Except.error i) =
      (Except.ok (42 : Nat), [1000, 2000]) := by
  have h := claim_C3_retry_backoff
    (fun i => if i = 3 then Except.ok 42 else Except.error i)
    (fun i => i) 3 2 42
    (fun i h1 h2 => by
      have : ¬ i = 3 := by omega
      simp [this])
    (by simp)
    (by omega)
  rw [h.1]
  rfl

/-- If every attempt from `a` through `a + rem` fails, `withRetryAux`
surfaces the error of the last attempt, `a + rem`. -/
theorem withRetryAux_all_fail {E A : Type} (fn : Nat → Except E A)
    (errs : Nat → E) :
    ∀ (rem a : Nat),
    (∀ i, a ≤ i → i ≤ a + rem → fn i = Except.error (errs i)) →
    (withRetryAux fn a rem).1 = Except.error (errs (a + rem)) := by
  intro rem
  induction rem with
  | zero =>
    intro a hfail
    have hfa : fn a = Except.error (errs a) := hfail a (Nat.le_refl a) (by omega)
    rw [withRetryAux_err_zero fn a (errs a) hfa]
    rfl
  | succ n ih =>
    intro a hfail
    have hfa : fn a = Except.error (errs a) := hfail a (Nat.le_refl a) (by omega)
    have hrec := ih (a + 1) (fun i h1 h2 => hfail i (by omega) (by omega))
    rw [withRetryAux_err_succ fn a n (errs a) hfa]
    rw [show a + (n + 1) = a + 1 + n by omega]
    exact hrec

/-- C4: when every attempt fails, `withRetry` propagates the error observed
on the final attempt (attempt number `retries`), not the first, and never
returns a success. -/
theorem claim_C4_last_error {E A : Type} (fn : Nat → Except E A)
    (errs : Nat → E) (retries : Nat)
    (hfail : ∀ i, 1 ≤ i → i ≤ retries → fn i = Except.error (errs i))
    (hret : 1 ≤ retries) :
    (withRetry retries fn).1 = Except.error (errs retries) := by
  have h := withRetryAux_all_fail fn errs (retries - 1) 1
    (fun i h1 h2 => hfail i h1 (by omega))
  rw [withRetry, h, show 1 + (retries - 1) = retries by omega]

/-- Witness for C4: with the default budget of 3 and an operation whose
attempt `i` fails with error `i`, the surfaced error is 3, the one from the
final attempt. -/
theorem claim_C4_witness :
    (withRetry 3 (fun i => (Except.error i : Except Nat String))).1 =
      Except.error 3 :=
  claim_C4_last_error (fun i => Except.error i) (fun i => i) 3
    (fun _ _ _ => rfl) (by omega)

/-- `addMessage` never changes the `active` flag, whatever the message. -/
theorem Session.addMessage_active (s : Session) (m : Message) :
    ((s.addMessage m).1).active = s.active := by
  unfold Session.addMessage
  split <;> rfl

/-- `addMessage` never shortens the history. -/
theorem Session.addMessage_length_le (s : Session) (m : Message) :
    s.conversationHistory.length ≤
      ((s.addMessage m).1).conversationHistory.length := by
  unfold Session.addMessage
  split <;> simp

/-- `addMessage` with a valid message appends it: length grows by one. -/
theorem Session.addMessage_length_valid (s : Session) (m : Message)
    (h : Message.validate m = true) :
    ((s.addMessage m).1).conversationHistory.length =
      s.conversationHistory.length + 1 := by
  simp [Session.addMessage, h]

/-- `addMessage` with a valid message makes it the last of the history. -/
theorem Session.addMessage_getLast (s : Session) (m : Message)
    (h : Message.validate m = true) :
    ((s.addMessage m).1).conversationHistory.getLast? = some m := by
  simp [Session.addMessage, h]

/-- The puppet message always validates: its id, sender and type are fixed
literals and its text is non-empty in both branches (the AI text when
non-empty, the fixed fallback otherwise). -/
theorem mkPuppetMessage_valid (r : AIResp) :
    Message.validate (mkPuppetMessage r) = true := by
  cases h : r.text == "" with
  | false =>
    simp [mkPuppetMessage, Message.validate, h]
    intro hh
    rw [hh] at h
    simp at h
  | true =>
    simp [mkPuppetMessage, Message.validate, h]

/-- `processUserMessage` on a missing session is the no-op `(e, none)`. -/
theorem processUserMessage_no_session (e : ConversationEngine) (text : String)
    (apiKey : Option String) (net : List RoleMsg → Nat → Except Nat String)
    (h : e.session = none) :
    e.processUserMessage text apiKey net = (e, none) := by
  unfold ConversationEngine.processUserMessage
  rw [h]

/-- `processUserMessage` while already processing is the no-op `(e, none)`:
the concurrency guard. -/
theorem processUserMessage_processing (e : ConversationEngine) (text : String)
    (apiKey : Option String) (net : List RoleMsg → Nat → Except Nat String)
    (h : e.isProcessing = true) :
    e.processUserMessage text apiKey net = (e, none) := by
  unfold ConversationEngine.processUserMessage
  cases hsess : e.session <;> simp [h]

/-- Full unfolding of a `processUserMessage` turn when the guard passes:
the user message is offered to the session, the AI response generated from
the resulting context, and the puppet message appended and returned. -/
theorem processUserMessage_run (e : ConversationEngine) (s : Session)
    (text : String) (apiKey : Option String)
    (net : List RoleMsg → Nat → Except Nat String)
    (hs : e.session = some s) (hp : e.isProcessing = false) :
    e.processUserMessage text apiKey net =
      ({ e with
          session := some
            (((s.addMessage (mkUserMessage text)).1.addMessage
              (mkPuppetMessage
                (generateAIResponse (s.addMessage (mkUserMessage text)).1
                  e.maxHistoryLength e.apiProvider apiKey net))).1),
          isProcessing := false },
        some (mkPuppetMessage
          (generateAIResponse (s.addMessage (mkUserMessage text)).1
            e.maxHistoryLength e.apiProvider apiKey net))) := by
  unfold ConversationEngine.processUserMessage
  rw [hs]
  simp [hp]

/-- C1 counterexample: ending the session and then calling
`processUserMessage` is neither rejected nor a no-op — the call returns a
puppet message and the ended session's history has grown from 0 to 2
messages, even though `active` is false. -/
theorem claim_C1_counterexample :
    ((sampleEngine.endSession).processUserMessage "hello" (some "k")
        okNet).2.isSome = true ∧
    ((sampleEngine.endSession).processUserMessage "hello" (some "k")
        okNet).1.session.map
      (fun s => s.conversationHistory.length) = some 2 ∧
    (sampleEngine.endSession).session.map Session.active = some false := by
  exact ⟨rfl, rfl, rfl⟩

/-- C1 amended: `endSession` makes `active` false and nothing un-ends a
session — `addMessage` and `processUserMessage` both preserve the flag, so
once false it stays false; but the engine does not enforce the append ban:
on an ended session `processUserMessage` proceeds normally and the history
still grows. -/
theorem claim_C1_no_reopen_but_appends (e : ConversationEngine) (s : Session)
    (m : Message) (text : String) (apiKey : Option String)
    (net : List RoleMsg → Nat → Except Nat String)
    (hs : e.session = some s) (hp : e.isProcessing = false)
    (hend : s.active = false) :
    (s.endSession).active = false ∧
    ((s.addMessage m).1).active = s.active ∧
    (e.processUserMessage text apiKey net).1.session.map Session.active =
      some false ∧
    ∃ s', (e.processUserMessage text apiKey net).1.session = some s' ∧
      s.conversationHistory.length < s'.conversationHistory.length := by
  refine ⟨rfl, Session.addMessage_active s m, ?_, ?_⟩
  · rw [processUserMessage_run e s text apiKey net hs hp]
    simp [Session.addMessage_active, hend]
  · rw [processUserMessage_run e s text apiKey net hs hp]
    refine ⟨_, rfl, ?_⟩
    have h1 := Session.addMessage_length_le s (mkUserMessage text)
    have h2 := Session.addMessage_length_valid
      ((s.addMessage (mkUserMessage text)).1)
      (mkPuppetMessage
        (generateAIResponse (s.addMessage (mkUserMessage text)).1
          e.maxHistoryLength e.apiProvider apiKey net))
      (mkPuppetMessage_valid _)
    omega

/-- Witness for C1 (amended): on the concrete ended engine, a turn still
grows the ended session's history. -/
theorem claim_C1_witness :
    ∃ s', ((sampleEngine.endSession).processUserMessage "hello" (some "k")
        okNet).1.session = some s' ∧
      (sampleSession.endSession).conversationHistory.length <
        s'.conversationHistory.length :=
  (claim_C1_no_reopen_but_appends (sampleEngine.endSession)
    (sampleSession.endSession) sampleMessage "hello" (some "k") okNet
    rfl rfl rfl).2.2.2

/-- C2 counterexample: with a ready engine, calling `processUserMessage`
with `" "` — text that is empty after trimming — is not rejected: it
returns a puppet message and appends both the whitespace user message and
the reply (history grows from 0 to 2). -/
theorem claim_C2_counterexample :
    jsTrim " " = "" ∧
    (sampleEngine.processUserMessage " " (some "k") okNet).2.isSome = true ∧
    (sampleEngine.processUserMessage " " (some "k") okNet).1.session.map
      (fun s => s.conversationHistory.length) = some 2 := by
  exact ⟨rfl, rfl, rfl⟩

/-- C2 amended: the `Processing` guard holds for `processUserMessage` (and
so does the missing-session guard): the call returns null and the engine,
hence the history, is unchanged.  The empty-after-trim guard exists only in
the simpler variant's `sendMessage`, which also has the `Processing`
guard; `processUserMessage` itself performs a full turn even for
whitespace-only text. -/
theorem claim_C2_processing_guard (e : ConversationEngine)
    (se : SimpleConversationEngine) (text t2 : String)
    (apiKey : Option String) (net : List RoleMsg → Nat → Except Nat String)
    (apiResult : Except String String) :
    (e.isProcessing = true → e.processUserMessage text apiKey net = (e, none)) ∧
    (e.session = none → e.processUserMessage text apiKey net = (e, none)) ∧
    (se.isProcessing = true → se.sendMessage t2 apiResult = (se, none)) ∧
    (jsTrim t2 = "" → se.sendMessage t2 apiResult = (se, none)) := by
  refine ⟨fun h => processUserMessage_processing e text apiKey net h,
    fun h => processUserMessage_no_session e text apiKey net h,
    fun h => ?_, fun h => ?_⟩
  · simp [SimpleConversationEngine.sendMessage, h]
  · by_cases hp : se.isProcessing <;>
      simp [SimpleConversationEngine.sendMessage, hp, h]

/-- Witness for C2 (amended): the busy concrete engine rejects a message as
a no-op, and the simple variant rejects whitespace-only input. -/
theorem claim_C2_witness :
    busyEngine.processUserMessage "hi" (some "k") okNet = (busyEngine, none) ∧
    SimpleConversationEngine.sendMessage ⟨10, [], false⟩ " "
      (Except.ok "ok") = (⟨10, [], false⟩, none) :=
  ⟨(claim_C2_processing_guard busyEngine ⟨10, [], false⟩ "hi" " "
      (some "k") okNet (Except.ok "ok")).1 rfl,
   (claim_C2_processing_guard busyEngine ⟨10, [], false⟩ "hi" " "
      (some "k") okNet (Except.ok "ok")).2.2.2 rfl⟩

/-- One-step unfolding of the `callLLMAPI` loop when the current attempt
fails with no attempts remaining: the last error is rethrown. -/
theorem callLLMAPIAux_err_zero (provider : String) (apiKey : Option String)
    (net1 : Nat → Except Nat String) (a : Nat) (e : LLMError) (called : Bool)
    (h : llmAttempt provider apiKey net1 a = (Except.error e, called)) :
    callLLMAPIAux provider apiKey net1 a 0 =
      (Except.error e, [], cond called 1 0) := by
  conv_lhs => unfold callLLMAPIAux
  rw [h]

/-- One-step unfolding of the `callLLMAPI` loop when the current attempt
fails with attempts remaining: wait `2^(a-1) * 1000` and run the next
attempt. -/
theorem callLLMAPIAux_err_succ (provider : String) (apiKey : Option String)
    (net1 : Nat → Except Nat String) (a r : Nat) (e : LLMError)
    (called : Bool)
    (h : llmAttempt provider apiKey net1 a = (Except.error e, called)) :
    callLLMAPIAux provider apiKey net1 a (r + 1) =
      ((callLLMAPIAux provider apiKey net1 (a + 1) r).1,
        2 ^ (a - 1) * 1000 ::
          (callLLMAPIAux provider apiKey net1 (a + 1) r).2.1,
        cond called 1 0 +
          (callLLMAPIAux provider apiKey net1 (a + 1) r).2.2) := by
  conv_lhs => unfold callLLMAPIAux
  rw [h]

/-- When the network fails on every attempt, each iteration of the
`callLLMAPI` loop ends in an error, whatever the provider and key. -/
theorem llmAttempt_error (provider : String) (apiKey : Option String)
    (net1 : Nat → Except Nat String)
    (h : ∀ i, ∃ c, net1 i = Except.error c) (a : Nat) :
    ∃ e called, llmAttempt provider apiKey net1 a =
      (Except.error e, called) := by
  match apiKey with
  | none => exact ⟨LLMError.noApiKey, false, rfl⟩
  | some key =>
    cases hb : (provider == "openai" || provider == "claude") with
    | true =>
      obtain ⟨c, hc⟩ := h a
      exact ⟨LLMError.apiError provider c, true, by simp [llmAttempt, hb, hc]⟩
    | false =>
      exact ⟨LLMError.unknownProvider provider, false,
        by simp [llmAttempt, hb]⟩

/-- When the network fails on every attempt, `callLLMAPI` itself ends in an
error: it rethrows the last attempt's error after exhausting its budget. -/
theorem callLLMAPI_error (provider : String) (apiKey : Option String)
    (net1 : Nat → Except Nat String)
    (h : ∀ i, ∃ c, net1 i = Except.error c) :
    ∃ e, (callLLMAPI provider apiKey net1).1 = Except.error e := by
  obtain ⟨e1, c1, h1⟩ := llmAttempt_error provider apiKey net1 h 1
  obtain ⟨e2, c2, h2⟩ := llmAttempt_error provider apiKey net1 h 2
  obtain ⟨e3, c3, h3⟩ := llmAttempt_error provider apiKey net1 h 3
  refine ⟨e3, ?_⟩
  unfold callLLMAPI
  rw [show (2 : Nat) = 1 + 1 from rfl,
    callLLMAPIAux_err_succ provider apiKey net1 1 1 e1 c1 h1]
  simp only
  rw [show (1 : Nat) + 1 = 2 from rfl,
    show (1 : Nat) = 0 + 1 from rfl,
    callLLMAPIAux_err_succ provider apiKey net1 2 0 e2 c2 h2]
  simp only
  rw [show (2 : Nat) + 1 = 3 from rfl,
    callLLMAPIAux_err_zero provider apiKey net1 3 e3 c3 h3]

/-- When the network fails on every attempt, `generateAIResponse` catches
the exhausted error and returns the fixed fallback reply with the
`confused` hint. -/
theorem generateAIResponse_fallback (s : Session) (mh : Nat)
    (provider : String) (apiKey : Option String)
    (net : List RoleMsg → Nat → Except Nat String)
    (hnet : ∀ msgs i, ∃ c, net msgs i = Except.error c) :
    generateAIResponse s mh provider apiKey net =
      ⟨"抱歉，我现在有点困惑。请再说一遍？", "confused"⟩ := by
  obtain ⟨e, he⟩ := callLLMAPI_error provider apiKey
    (net (formatMessages (s.getConversationContext mh)))
    (fun i => hnet _ i)
  unfold generateAIResponse
  rw [he]

/-- When every iteration of the `callLLMAPI` loop fails with the same error
without a network call, the loop runs all three attempts, waits 1000 then
2000 milliseconds, performs zero network calls, and rethrows the error. -/
theorem callLLMAPI_const_error (p : String) (k : Option String)
    (net1 : Nat → Except Nat String) (e : LLMError)
    (hstep : ∀ a, llmAttempt p k net1 a = (Except.error e, false)) :
    callLLMAPI p k net1 = (Except.error e, [1000, 2000], 0) := by
  have h1 := callLLMAPIAux_err_succ p k net1 1 1 e false (hstep 1)
  have h2 := callLLMAPIAux_err_succ p k net1 2 0 e false (hstep 2)
  have h3 := callLLMAPIAux_err_zero p k net1 3 e false (hstep 3)
  simp only [Bool.cond_false, Nat.zero_add, Nat.reduceAdd, Nat.reduceSub,
    Nat.reducePow, Nat.reduceMul] at h1 h2 h3
  rw [callLLMAPI, h1, h2, h3]

/-- C5 counterexample: `callLLMAPI` with no API key fails before any network
call (0 network calls), but the configuration error is retried through the
whole budget — the backoff waits 1000 and 2000 do occur, contradicting
"exactly one attempt, no backoff waits". -/
theorem claim_C5_counterexample :
    callLLMAPI "openai" none (fun _ => Except.ok "hi") =
      (Except.error LLMError.noApiKey, [1000, 2000], 0) ∧
    ¬([1000, 2000] = ([] : List Nat)) := by
  exact ⟨rfl, by simp⟩

/-- C5 amended: a missing API key or an unknown provider produces a
configuration error with zero network calls (the fail-fast-before-network
half is true); but in `callLLMAPI` these checks sit inside the retry loop,
so the error is retried across all 3 attempts with backoff waits 1000 and
2000 before being propagated.  In `APIClient.sendMessage` an unknown
provider does fail with a single un-retried error and no waits — and a
missing API key is not checked there at all. -/
theorem claim_C5_config_error_retried (provider : String) (key : String)
    (net1 : Nat → Except Nat String) (c : APIClient)
    (hp1 : provider ≠ "openai") (hp2 : provider ≠ "claude")
    (hc1 : c.config.provider ≠ "openai") (hc2 : c.config.provider ≠ "claude") :
    callLLMAPI provider none net1 =
      (Except.error LLMError.noApiKey, [1000, 2000], 0) ∧
    callLLMAPI provider (some key) net1 =
      (Except.error (LLMError.unknownProvider provider), [1000, 2000], 0) ∧
    c.sendMessage net1 =
      (Except.error (LLMError.unknownProvider c.config.provider), []) := by
  have hb : (provider == "openai" || provider == "claude") = false := by
    simp [hp1, hp2]
  have hcb : (c.config.provider == "openai" || c.config.provider == "claude")
      = false := by
    simp [hc1, hc2]
  have hstep : ∀ a, llmAttempt provider (some key) net1 a =
      (Except.error (LLMError.unknownProvider provider), false) := by
    intro a
    simp [llmAttempt, hb]
  refine ⟨?_, ?_, ?_⟩
  · exact callLLMAPI_const_error provider none net1 LLMError.noApiKey
      (fun a => rfl)
  · exact callLLMAPI_const_error provider (some key) net1
      (LLMError.unknownProvider provider) hstep
  · simp [APIClient.sendMessage, hcb]

/-- Witness for C5 (amended): the concrete provider name `gemini` with a key
present is rejected by `callLLMAPI` only after the full retried budget, and
immediately (no waits) by `APIClient.sendMessage`. -/
theorem claim_C5_witness :
    callLLMAPI "gemini" (some "k") (fun _ => Except.ok "hi") =
      (Except.error (LLMError.unknownProvider "gemini"), [1000, 2000], 0) ∧
    (APIClient.mk ⟨"gemini", some "k", 30000, 3⟩).sendMessage
        (fun _ => Except.ok "hi") =
      (Except.error (LLMError.unknownProvider "gemini"), []) :=
  ⟨(claim_C5_config_error_retried "gemini" "k" (fun _ => Except.ok "hi")
      (APIClient.mk ⟨"gemini", some "k", 30000, 3⟩)
      (by decide) (by decide) (by decide) (by decide)).2.1,
   (claim_C5_config_error_retried "gemini" "k" (fun _ => Except.ok "hi")
      (APIClient.mk ⟨"gemini", some "k", 30000, 3⟩)
      (by decide) (by decide) (by decide) (by decide)).2.2⟩

/-- C6: when the provider call fails on every attempt (so retries are
exhausted), `processUserMessage` still returns normally: no exception
reaches the caller — the result is a puppet message carrying the fixed
fallback text and the `confused` animation hint, and that message is
appended as the last element of the session history. -/
theorem claim_C6_fallback_on_failure (e : ConversationEngine) (s : Session)
    (text : String) (apiKey : Option String)
    (net : List RoleMsg → Nat → Except Nat String)
    (hs : e.session = some s) (hp : e.isProcessing = false)
    (hnet : ∀ msgs i, ∃ c, net msgs i = Except.error c) :
    ∃ e' m, e.processUserMessage text apiKey net = (e', some m) ∧
      m.text = "抱歉，我现在有点困惑。请再说一遍？" ∧
      m.metadata.animationHint = some "confused" ∧
      ∃ s', e'.session = some s' ∧
        s'.conversationHistory.getLast? = some m := by
  have hrun := processUserMessage_run e s text apiKey net hs hp
  rw [generateAIResponse_fallback _ _ _ _ _ hnet] at hrun
  refine ⟨_, _, hrun, rfl, rfl, _, rfl, ?_⟩
  exact Session.addMessage_getLast _ _ (mkPuppetMessage_valid _)

/-- Witness for C6: with the concrete always-failing network, the ready
engine's turn returns the fallback message with the `confused` hint,
appended last. -/
theorem claim_C6_witness :
    ∃ e' m, sampleEngine.processUserMessage "hi" (some "k") failNet =
        (e', some m) ∧
      m.text = "抱歉，我现在有点困惑。请再说一遍？" ∧
      m.metadata.animationHint = some "confused" ∧
      ∃ s', e'.session = some s' ∧
        s'.conversationHistory.getLast? = some m :=
  claim_C6_fallback_on_failure sampleEngine sampleSession "hi" (some "k")
    failNet rfl rfl (fun _ _ => ⟨500, rfl⟩)

/-- With a positive cap, the trimmed history never exceeds the cap: either
it was already within the cap, or the drop leaves exactly `max` elements. -/
theorem trimHistory_length (l : List RoleMsg) (max : Nat) (hmax : 1 ≤ max) :
    (trimHistory l max).length ≤ max := by
  unfold trimHistory
  split
  · have hm0 : ¬ max = 0 := by omega
    simp only [hm0, if_false, List.length_drop]
    omega
  · next h => omega

/-- C8 counterexample: with `maxHistory = 2`, after three successful turns
the simple engine's stored history holds 3 messages, not the most recent 2:
the truncation runs only after the user push, so each assistant push leaves
the history one over the cap. -/
theorem claim_C8_counterexample :
    (seTurn (seTurn (seTurn ⟨2, [], false⟩ "u1" "r1") "u2" "r2")
        "u3" "r3").conversationHistory =
      [⟨"assistant", "r2"⟩, ⟨"user", "u3"⟩, ⟨"assistant", "r3"⟩] ∧
    ¬((seTurn (seTurn (seTurn ⟨2, [], false⟩ "u1" "r1") "u2" "r2")
        "u3" "r3").conversationHistory.length ≤ 2) := by
  exact ⟨rfl, by decide⟩

/-- C8 amended: the truncation in the simple variant's `sendMessage` runs
only on the user-message push, so the invariant the code maintains is
`length ≤ maxHistory + 1`, not `≤ maxHistory` — the assistant push can
leave the history one over the cap (and with `maxHistory = 2` three turns
retain 3 messages, not 2).  The schema-based variant never truncates the
stored history at all: `processUserMessage` only ever grows it, the cap
only bounding the context window sent to the provider. -/
theorem claim_C8_cap_plus_one (se : SimpleConversationEngine) (u : String)
    (apiResult : Except String String) (e : ConversationEngine) (s : Session)
    (text : String) (apiKey : Option String)
    (net : List RoleMsg → Nat → Except Nat String)
    (hmax : 1 ≤ se.maxHistory)
    (hlen : se.conversationHistory.length ≤ se.maxHistory + 1)
    (hs : e.session = some s) :
    ((se.sendMessage u apiResult).1).conversationHistory.length ≤
      se.maxHistory + 1 ∧
    ∃ s', (e.processUserMessage text apiKey net).1.session = some s' ∧
      s.conversationHistory.length ≤ s'.conversationHistory.length := by
  constructor
  · by_cases hp : se.isProcessing
    · simp [SimpleConversationEngine.sendMessage, hp]
      exact hlen
    · by_cases ht : (jsTrim u == "") = true
      · simp [SimpleConversationEngine.sendMessage, hp, ht]
        exact hlen
      · have hcap := trimHistory_length
          (se.conversationHistory ++ [(⟨"user", u⟩ : RoleMsg)])
          se.maxHistory hmax
        rcases apiResult with st | response
        · simp [SimpleConversationEngine.sendMessage, hp, ht]
          omega
        · by_cases hr : (response == "") = true
          · simp [SimpleConversationEngine.sendMessage, hp, ht, hr]
            omega
          · simp [SimpleConversationEngine.sendMessage, hp, ht, hr]
            omega
  · by_cases hp : e.isProcessing
    · rw [processUserMessage_processing e text apiKey net hp]
      exact ⟨s, hs, Nat.le_refl _⟩
    · rw [processUserMessage_run e s text apiKey net hs
        (by simp [Bool.not_eq_true] at hp; exact hp)]
      refine ⟨_, rfl, ?_⟩
      have h1 := Session.addMessage_length_le s (mkUserMessage text)
      have h2 := Session.addMessage_length_le
        ((s.addMessage (mkUserMessage text)).1)
        (mkPuppetMessage
          (generateAIResponse (s.addMessage (mkUserMessage text)).1
            e.maxHistoryLength e.apiProvider apiKey net))
      omega

/-- Witness for C8 (amended): the concrete capped engine stays within
`maxHistory + 1` across a turn, and a turn of the schema-based engine never
shrinks the session history. -/
theorem claim_C8_witness :
    ((SimpleConversationEngine.sendMessage ⟨2, [], false⟩ "hi"
        (Except.ok "yo")).1).conversationHistory.length ≤ 2 + 1 ∧
    ∃ s', (sampleEngine.processUserMessage "t" (some "k")
        okNet).1.session = some s' ∧
      sampleSession.conversationHistory.length ≤
        s'.conversationHistory.length :=
  claim_C8_cap_plus_one ⟨2, [], false⟩ "hi" (Except.ok "yo") sampleEngine
    sampleSession "t" (some "k") okNet (by decide) (by decide) rfl

/-- C9 counterexample: `getConversationContext 0` returns the whole history
(JavaScript `slice(-0)` is `slice(0)`), so on a one-message history it
returns 1 message, more than the limit 0. -/
theorem claim_C9_counterexample :
    (oneMessageSession.getConversationContext 0).length = 1 ∧
    ¬((oneMessageSession.getConversationContext 0).length ≤ 0) := by
  exact ⟨rfl, by decide⟩

/-- C9 amended: for every limit ≥ 1, `getConversationContext limit` returns
at most `limit` messages, they form a suffix of the history (the last
messages, in original order), and when the history is no longer than the
limit the whole history is returned; the function is pure, so repeated
calls on the same history agree and the history is untouched.  For
limit = 0 the whole history is returned instead (`slice(-0)` = `slice(0)`). -/
theorem claim_C9_context_window (s : Session) (limit : Nat)
    (hl : 1 ≤ limit) :
    (s.getConversationContext limit).length ≤ limit ∧
    (∃ p, s.conversationHistory = p ++ s.getConversationContext limit) ∧
    (s.conversationHistory.length ≤ limit →
      s.getConversationContext limit = s.conversationHistory) := by
  have h0 : ¬ limit = 0 := by omega
  unfold Session.getConversationContext
  simp only [h0, if_false]
  refine ⟨?_, ⟨s.conversationHistory.take
    (s.conversationHistory.length - limit), ?_⟩, ?_⟩
  · simp only [List.length_drop]
    omega
  · exact (List.take_append_drop _ _).symm
  · intro h
    have hz : s.conversationHistory.length - limit = 0 := by omega
    simp [hz]

/-- Witness for C9 (amended): on the concrete one-message session with the
default limit 10 the context window is within the limit, is a suffix, and
equals the whole (shorter) history. -/
theorem claim_C9_witness :
    (oneMessageSession.getConversationContext 10).length ≤ 10 ∧
    (∃ p, oneMessageSession.conversationHistory =
      p ++ oneMessageSession.getConversationContext 10) ∧
    (oneMessageSession.conversationHistory.length ≤ 10 →
      oneMessageSession.getConversationContext 10 =
        oneMessageSession.conversationHistory) :=
  claim_C9_context_window oneMessageSession 10 (by decide)
